import Mathlib

/-!
Shallow embedding of the simulation core of `src/main.rs` (a tile-based RPG):
tile grid, map catalog, actor model, dialogue engine, combat resolver,
message log and the top-level game state machine, together with theorems
about the behaviour of the embedded operations.

The `tiles` matrix of the Rust code (`Vec<Vec<TileType>>`, indexed `[y][x]`)
is embedded as a total function `Int → Int → TileType` taking `y` first;
each map constructor's sequence of imperative writes is reproduced as a
chain of conditionals checked in reverse write order, so that later writes
shadow earlier ones exactly as in the source.  The `HashMap<(i32,i32),Item>`
of ground items is embedded as an association list with unique keys.
-/

/-- Tile type enumeration (`enum TileType`). -/
inductive TileType where
  | Floor
  | Wall
  | Door
  | Water
  | Grass
  | Mountain
  | Forest
  | Town
  | Dungeon
deriving DecidableEq

/-- Map type enumeration (`enum MapType`). -/
inductive MapType where
  | WorldMap
  | Town
  | Dungeon
deriving DecidableEq

/-- `TileType::is_walkable` from the source. -/
def TileType.is_walkable : TileType → Bool
  | .Floor | .Door | .Grass | .Forest | .Town | .Dungeon => true
  | _ => false

/-- `TileType::is_enterable` from the source. -/
def TileType.is_enterable : TileType → Bool
  | .Town | .Dungeon => true
  | _ => false

/-- Item type enumeration (`enum ItemType`). -/
inductive ItemType where
  | Weapon (damage : Int)
  | Armor (defense : Int)
  | Consumable (heal : Int)
  | Quest
deriving DecidableEq

/-- Item structure (`struct Item`). -/
structure Item where
  name : String
  char : String
  item_type : ItemType
deriving DecidableEq

/-- Dialogue option (`struct DialogueOption`). -/
structure DialogueOption where
  text : String
  next_node : Option Nat
deriving DecidableEq

/-- Dialogue node (`struct DialogueNode`). -/
structure DialogueNode where
  text : String
  options : List DialogueOption
deriving DecidableEq

/-- Non-player character (`struct NPC`). -/
structure NPC where
  name : String
  char : String
  x : Int
  y : Int
  hp : Int
  max_hp : Int
  hostile : Bool
  dialogue : List DialogueNode
deriving DecidableEq

instance : Inhabited NPC :=
  ⟨{ name := "", char := "", x := 0, y := 0, hp := 0, max_hp := 0,
     hostile := false, dialogue := [] }⟩

/-- Player stats (`struct PlayerStats`). -/
structure PlayerStats where
  strength : Int
  perception : Int
  endurance : Int
  charisma : Int
  intelligence : Int
  agility : Int
  luck : Int
deriving DecidableEq

/-- Player (`struct Player`). -/
structure Player where
  x : Int
  y : Int
  hp : Int
  max_hp : Int
  inventory : List Item
  stats : PlayerStats
deriving DecidableEq

/-- Game map (`struct GameMap`); `tiles` is the `[y][x]`-indexed matrix as a
function, `items` the coordinate-keyed ground-item mapping. -/
structure GameMap where
  width : Int
  height : Int
  tiles : Int → Int → TileType
  items : List ((Int × Int) × Item)
  map_type : MapType
  name : String

instance : Inhabited GameMap :=
  ⟨{ width := 0, height := 0, tiles := fun _ _ => TileType.Floor, items := [],
     map_type := MapType.WorldMap, name := "" }⟩

/-- `HashMap` lookup: the item stored under key `k`, if any. -/
def findItem (items : List ((Int × Int) × Item)) (k : Int × Int) : Option Item :=
  (items.find? (fun p => p.1 == k)).map Prod.snd

/-- `HashMap::remove`: drop the entry stored under key `k`. -/
def removeItem (items : List ((Int × Int) × Item)) (k : Int × Int) :
    List ((Int × Int) × Item) :=
  items.filter (fun p => p.1 != k)

/-- `GameMap::new_world_map`: 80×40 grassland with mountain, forest and water
regions and four gate tiles; the conditional chain checks the source's writes
in reverse order. -/
def new_world_map : GameMap where
  width := 80
  height := 40
  tiles := fun y x =>
    if x = 15 ∧ y = 10 then .Town
    else if x = 50 ∧ y = 25 then .Town
    else if x = 40 ∧ y = 8 then .Dungeon
    else if x = 25 ∧ y = 30 then .Dungeon
    else if 40 ≤ x ∧ x < 60 ∧ 30 ≤ y ∧ y < 35 then .Water
    else if 10 ≤ x ∧ x < 20 ∧ 15 ≤ y ∧ y < 25 then .Forest
    else if 20 ≤ x ∧ x < 30 ∧ 5 ≤ y ∧ y < 10 then .Mountain
    else .Grass
  items := []
  map_type := .WorldMap
  name := "Wasteland"

/-- The "Town Supply" consumable placed in every town map. -/
def town_supply : Item :=
  { name := "Town Supply", char := "$", item_type := .Consumable 30 }

/-- `GameMap::new_town_map`: 40×30 walled town with two buildings (each
pierced by a door) and a decorative water cell; one ground item at (10,15). -/
def new_town_map (town_id : Nat) : GameMap where
  width := 40
  height := 30
  tiles := fun y x =>
    if x = 10 ∧ y = 15 then .Water
    else if x = 25 ∧ y = 18 then .Door
    else if 20 ≤ x ∧ x < 30 ∧ 15 ≤ y ∧ y < 22 then .Wall
    else if x = 10 ∧ y = 8 then .Door
    else if 5 ≤ x ∧ x < 15 ∧ 5 ≤ y ∧ y < 12 then .Wall
    else if x = 0 ∨ x = 39 ∨ y = 0 ∨ y = 29 then .Wall
    else .Floor
  items := [((10, 15), town_supply)]
  map_type := .Town
  name := "Town #" ++ toString (town_id + 1)

/-- The "Treasure Chest" weapon placed in every dungeon map. -/
def treasure_chest : Item :=
  { name := "Treasure Chest", char := "☐", item_type := .Weapon 25 }

/-- `GameMap::new_dungeon_map`: 40×30 walled dungeon with two interior walls
(each pierced by a door) and a water region; one ground item at (5,5). -/
def new_dungeon_map (dungeon_id : Nat) : GameMap where
  width := 40
  height := 30
  tiles := fun y x =>
    if 25 ≤ x ∧ x < 30 ∧ 8 ≤ y ∧ y < 12 then .Water
    else if x = 20 ∧ y = 15 then .Door
    else if x = 20 ∧ 10 ≤ y ∧ y < 20 then .Wall
    else if x = 12 ∧ y = 5 then .Door
    else if 10 ≤ x ∧ x < 15 ∧ y = 5 then .Wall
    else if x = 0 ∨ x = 39 ∨ y = 0 ∨ y = 29 then .Wall
    else .Floor
  items := [((5, 5), treasure_chest)]
  map_type := .Dungeon
  name := "Dungeon #" ++ toString (dungeon_id + 1)

/-- `GameMap::is_walkable`: out-of-bounds coordinates are never walkable;
in-bounds ones defer to the tile's walkability. -/
def GameMap.is_walkable (m : GameMap) (x y : Int) : Bool :=
  if x < 0 ∨ x ≥ m.width ∨ y < 0 ∨ y ≥ m.height then false
  else (m.tiles y x).is_walkable

/-- Game state enumeration (`enum GameState`): Playing, Inventory,
Dialogue (NPC index, node index, selected option index), Combat (NPC index). -/
inductive GameState where
  | Playing
  | Inventory
  | Dialogue (npc_idx node_idx selected : Nat)
  | Combat (npc_idx : Nat)
deriving DecidableEq

/-- Map location record (`struct MapLocation`), saved when leaving the
world map. -/
structure MapLocation where
  map_type : MapType
  map_id : Nat
  x : Int
  y : Int
deriving DecidableEq

/-- Main game structure (`struct Game`); the camera fields are carried along
but never read by the core logic. -/
structure Game where
  player : Player
  current_map : GameMap
  world_map : GameMap
  town_maps : List GameMap
  dungeon_maps : List GameMap
  npcs : List NPC
  state : GameState
  messages : List String
  camera_x : Int
  camera_y : Int
  previous_location : Option MapLocation

/-- Entry node of the Traveling Merchant's dialogue graph. -/
def merchant_node0 : DialogueNode :=
  { text := "Howdy, stranger! What brings you to these parts?"
    options :=
      [{ text := "I am here for adventure!", next_node := some 1 },
       { text := "Just passing by.", next_node := some 2 },
       { text := "None of your business.", next_node := none }] }

/-- The friendly Traveling Merchant at (35,20). -/
def traveling_merchant : NPC :=
  { name := "Traveling Merchant"
    char := "♥"
    x := 35
    y := 20
    hp := 50
    max_hp := 50
    hostile := false
    dialogue :=
      [merchant_node0,
       { text := "Adventure, eh? Well, watch out for demonic cows!"
         options := [{ text := "Thanks for the tip!", next_node := none }] },
       { text := "Safe travels, partner!"
         options := [{ text := "See ya!", next_node := none }] }] }

/-- The world-map roster built by `Game::new` and `load_world_npcs`. -/
def world_npcs : List NPC := [traveling_merchant]

/-- `load_town_npcs`: two friendly NPCs, Townfolk at (15,15) and Blacksmith
at (10,8); the Rust function ignores its `town_id` argument. -/
def town_npcs (_town_id : Nat) : List NPC :=
  [{ name := "Townfolk"
     char := "☺"
     x := 15
     y := 15
     hp := 50
     max_hp := 50
     hostile := false
     dialogue :=
       [{ text := "Welcome to our town! Are you lost or just weird?"
          options :=
            [{ text := "A bit of both, honestly.", next_node := some 1 },
             { text := "I am looking for work.", next_node := some 2 }] },
        { text := "That is the spirit! You will fit right in."
          options := [{ text := "Thanks?", next_node := none }] },
        { text := "Try the saloon. Or the cemetery. Both are lively."
          options := [{ text := "I will check them out.", next_node := none }] }] },
   { name := "Blacksmith"
     char := "♦"
     x := 10
     y := 8
     hp := 80
     max_hp := 80
     hostile := false
     dialogue :=
       [{ text := "Need repairs? Or just here to chat?"
          options :=
            [{ text := "My gear is busted.", next_node := some 1 },
             { text := "Just lonely.", next_node := some 2 }] },
        { text := "That will be 50 meat. Up front."
          options := [{ text := "Here you go.", next_node := none }] },
        { text := "Me too, friend. Me too."
          options := [{ text := "...", next_node := none }] }] }]

/-- The hostile Dungeon Guard (80 hp) at (10,10). -/
def dungeon_guard : NPC :=
  { name := "Dungeon Guard"
    char := "G"
    x := 10
    y := 10
    hp := 80
    max_hp := 80
    hostile := true
    dialogue :=
      [{ text := "Intruders must die!"
         options := [{ text := "Fight!", next_node := none }] }] }

/-- `load_dungeon_npcs`: Dungeon Guard and the hostile Mutant Beast (100 hp)
at (25,15); the Rust function ignores its `dungeon_id` argument. -/
def dungeon_npcs (_dungeon_id : Nat) : List NPC :=
  [dungeon_guard,
   { name := "Mutant Beast"
     char := "M"
     x := 25
     y := 15
     hp := 100
     max_hp := 100
     hostile := true
     dialogue :=
       [{ text := "Hssssss..."
          options := [{ text := "Back away slowly...", next_node := none }] }] }]

/-- `Game::new`: player at (40,20) with 100 hp and empty inventory, world
map active, catalogs of two towns and two dungeons, world roster, Playing
state, one welcome message, no saved location. -/
def Game.new : Game where
  player :=
    { x := 40
      y := 20
      hp := 100
      max_hp := 100
      inventory := []
      stats :=
        { strength := 5, perception := 5, endurance := 5, charisma := 5,
          intelligence := 5, agility := 5, luck := 5 } }
  current_map := new_world_map
  world_map := new_world_map
  town_maps := [new_town_map 0, new_town_map 1]
  dungeon_maps := [new_dungeon_map 0, new_dungeon_map 1]
  npcs := world_npcs
  state := .Playing
  messages :=
    ["Welcome to the Wasteland! Press SPACE to enter towns/dungeons, ESC to return."]
  camera_x := 0
  camera_y := 0
  previous_location := none

/-- `Game::add_message`: push the message, then drop the oldest entry when
the log holds more than 5. -/
def Game.add_message (g : Game) (msg : String) : Game :=
  let msgs := g.messages ++ [msg]
  { g with messages := if msgs.length > 5 then msgs.drop 1 else msgs }

/-- `Iterator::position`: index of the first element satisfying `p`. -/
def listPos (p : NPC → Bool) : List NPC → Option Nat
  | [] => none
  | n :: ns => if p n then some 0 else (listPos p ns).map (· + 1)

/-- `Game::move_player`: an NPC at the target cell triggers combat or
dialogue without moving; otherwise a walkable target moves the player and
picks up any ground item there; otherwise nothing happens. -/
def Game.move_player (g : Game) (dx dy : Int) : Game :=
  let new_x := g.player.x + dx
  let new_y := g.player.y + dy
  match listPos (fun n => n.x == new_x && n.y == new_y) g.npcs with
  | some npc_idx =>
      let npc := g.npcs.getD npc_idx default
      if npc.hostile then
        let g1 := { g with state := .Combat npc_idx }
        g1.add_message ("Combat with " ++ npc.name ++ "!")
      else
        { g with state := .Dialogue npc_idx 0 0 }
  | none =>
      if g.current_map.is_walkable new_x new_y then
        let g1 := { g with player := { g.player with x := new_x, y := new_y } }
        match findItem g1.current_map.items (new_x, new_y) with
        | some item =>
            let g2 :=
              { g1 with current_map :=
                  { g1.current_map with
                      items := removeItem g1.current_map.items (new_x, new_y) } }
            let g3 := g2.add_message ("Picked up " ++ item.name)
            { g3 with player :=
                { g3.player with inventory := g3.player.inventory ++ [item] } }
        | none => g1
      else g

/-- `Game::try_enter_location`: from the world map, standing on an enterable
tile, save the current position and load the town/dungeon selected by the
hardcoded coordinate check, placing the player at the map's entry cell. -/
def Game.try_enter_location (g : Game) : Game :=
  let x := g.player.x
  let y := g.player.y
  if g.current_map.map_type ≠ .WorldMap then g
  else
    let tile := g.current_map.tiles y x
    if ¬ tile.is_enterable then g
    else
      let prev : MapLocation := { map_type := .WorldMap, map_id := 0, x := x, y := y }
      let g1 := { g with previous_location := some prev }
      match tile with
      | .Town =>
          let town_id : Nat := if (x, y) = ((15 : Int), (10 : Int)) then 0 else 1
          let g2 :=
            { g1 with current_map := g1.town_maps.getD town_id default,
                      player := { g1.player with x := 20, y := 15 },
                      npcs := town_npcs town_id }
          g2.add_message ("Entered " ++ g2.current_map.name)
      | .Dungeon =>
          let dungeon_id : Nat := if (x, y) = ((40 : Int), (8 : Int)) then 0 else 1
          let g2 :=
            { g1 with current_map := g1.dungeon_maps.getD dungeon_id default,
                      player := { g1.player with x := 5, y := 5 },
                      npcs := dungeon_npcs dungeon_id }
          g2.add_message ("Entered " ++ g2.current_map.name)
      | _ => g1

/-- `Game::return_to_world_map`: when on a sub-map with a saved location,
reload the world map, restore the saved position, clear the memory and
reload the world roster. -/
def Game.return_to_world_map (g : Game) : Game :=
  if g.current_map.map_type = .WorldMap then g
  else
    match g.previous_location with
    | some prev =>
        let g1 :=
          { g with current_map := g.world_map,
                   player := { g.player with x := prev.x, y := prev.y },
                   previous_location := none,
                   npcs := world_npcs }
        g1.add_message "Returned to world map"
    | none => g

/-- Per-frame key presses routed by the main loop; one key per step, as the
input layer is edge-triggered. -/
inductive Key where
  | W
  | S
  | A
  | D
  | I
  | Space
  | Escape
  | Enter
  | Key1
  | Key3
deriving DecidableEq

/-- The `GameState::Playing` arm of the main loop's input handling. -/
def playing_step (g : Game) (k : Key) : Game :=
  match k with
  | .W => g.move_player 0 (-1)
  | .S => g.move_player 0 1
  | .A => g.move_player (-1) 0
  | .D => g.move_player 1 0
  | .I => { g with state := .Inventory }
  | .Space => g.try_enter_location
  | .Escape => g.return_to_world_map
  | _ => g

/-- The `GameState::Inventory` arm of the main loop's input handling. -/
def inventory_step (g : Game) (k : Key) : Game :=
  match k with
  | .I | .Escape => { g with state := .Playing }
  | _ => g

/-- The `GameState::Dialogue` arm of the main loop's input handling;
`none` models a Rust panic from an out-of-bounds index (`npcs[i]`,
`dialogue[n]`, `options[s]`). -/
def dialogue_step (g : Game) (npc_idx node_idx selected : Nat) (k : Key) :
    Option Game :=
  match g.npcs[npc_idx]? with
  | none => none
  | some npc =>
    match npc.dialogue[node_idx]? with
    | none => none
    | some node =>
      let num_options := node.options.length
      match k with
      | .W =>
          some (if selected > 0 then
                  { g with state := .Dialogue npc_idx node_idx (selected - 1) }
                else g)
      | .S =>
          some (if selected + 1 < num_options then
                  { g with state := .Dialogue npc_idx node_idx (selected + 1) }
                else g)
      | .Space | .Enter =>
          match node.options[selected]? with
          | none => none
          | some opt =>
              match opt.next_node with
              | some next => some { g with state := .Dialogue npc_idx next 0 }
              | none => some { g with state := .Playing }
      | .Escape => some { g with state := .Playing }
      | _ => some g

/-- The `GameState::Combat` arm of the main loop's input handling; `none`
models a Rust panic from an out-of-bounds `npcs[i]`. -/
def combat_step (g : Game) (npc_idx : Nat) (k : Key) : Option Game :=
  match k with
  | .Key1 =>
      match g.npcs[npc_idx]? with
      | none => none
      | some npc =>
          let damage : Int := 15
          let npc1 : NPC := { npc with hp := npc.hp - damage }
          let g1 := { g with npcs := g.npcs.set npc_idx npc1 }
          let g2 := g1.add_message ("You dealt " ++ toString damage ++ " damage!")
          if npc1.hp ≤ 0 then
            let g3 := g2.add_message (npc1.name ++ " defeated!")
            some { g3 with npcs := g3.npcs.eraseIdx npc_idx, state := .Playing }
          else
            let enemy_damage : Int := 10
            let g3 :=
              { g2 with player := { g2.player with hp := g2.player.hp - enemy_damage } }
            some (g3.add_message ("Enemy dealt " ++ toString enemy_damage ++ " damage!"))
  | .Key3 =>
      let g1 := g.add_message "You ran away!"
      some { g1 with state := .Playing }
  | _ => some g

/-- One frame of the main loop's input handling for a single pressed key,
following the `match game.state` dispatch in `main`. -/
def step (g : Game) (k : Key) : Option Game :=
  match g.state with
  | .Playing => some (playing_step g k)
  | .Inventory => some (inventory_step g k)
  | .Dialogue npc_idx node_idx selected => dialogue_step g npc_idx node_idx selected k
  | .Combat npc_idx => combat_step g npc_idx k

/-- Run a sequence of key presses from a starting game, failing if any
frame panics. -/
def steps (g : Game) : List Key → Option Game
  | [] => some g
  | k :: ks =>
      match step g k with
      | none => none
      | some g1 => steps g1 ks

/-! ### Helper lemmas about the embedded operations -/

@[simp] lemma add_message_player (g : Game) (m : String) :
    (g.add_message m).player = g.player := rfl

@[simp] lemma add_message_current_map (g : Game) (m : String) :
    (g.add_message m).current_map = g.current_map := rfl

@[simp] lemma add_message_world_map (g : Game) (m : String) :
    (g.add_message m).world_map = g.world_map := rfl

@[simp] lemma add_message_town_maps (g : Game) (m : String) :
    (g.add_message m).town_maps = g.town_maps := rfl

@[simp] lemma add_message_dungeon_maps (g : Game) (m : String) :
    (g.add_message m).dungeon_maps = g.dungeon_maps := rfl

@[simp] lemma add_message_npcs (g : Game) (m : String) :
    (g.add_message m).npcs = g.npcs := rfl

@[simp] lemma add_message_state (g : Game) (m : String) :
    (g.add_message m).state = g.state := rfl

@[simp] lemma add_message_previous_location (g : Game) (m : String) :
    (g.add_message m).previous_location = g.previous_location := rfl

lemma add_message_length_le (g : Game) (m : String) (h : g.messages.length ≤ 5) :
    (g.add_message m).messages.length ≤ 5 := by
  simp only [Game.add_message]
  split
  · simp only [List.length_drop, List.length_append, List.length_singleton]
    omega
  · next hle =>
    simp only [gt_iff_lt, not_lt] at hle
    exact hle

lemma add_message_getLast (g : Game) (m : String) :
    (g.add_message m).messages.getLast? = some m := by
  simp only [Game.add_message]
  split
  · next hgt =>
    cases hm : g.messages with
    | nil => simp [hm] at hgt
    | cons a t => simp [hm, List.getLast?_concat]
  · simp [List.getLast?_concat]

lemma listPos_of_exists (p : NPC → Bool) (l : List NPC) (h : ∃ n ∈ l, p n = true) :
    ∃ i npc, listPos p l = some i ∧ l[i]? = some npc ∧ p npc = true := by
  induction l with
  | nil => simp at h
  | cons a l ih =>
    by_cases ha : p a = true
    · exact ⟨0, a, by simp [listPos, ha], by simp, ha⟩
    · obtain ⟨n, hn, hpn⟩ := h
      rcases List.mem_cons.mp hn with rfl | hn'
      · exact absurd hpn ha
      · obtain ⟨i, npc, h1, h2, h3⟩ := ih ⟨n, hn', hpn⟩
        refine ⟨i + 1, npc, ?_, by simpa using h2, h3⟩
        simp [listPos, ha, h1]

lemma getD_of_getElem? {l : List NPC} {i : Nat} {n : NPC} (h : l[i]? = some n) :
    l.getD i default = n := by
  simp [List.getD, List.get?_eq_getElem?, h]

lemma findItem_removeItem_self (items : List ((Int × Int) × Item)) (k : Int × Int) :
    findItem (removeItem items k) k = none := by
  induction items with
  | nil => rfl
  | cons p items ih =>
    by_cases hp : p.1 = k
    · simp [removeItem, findItem, hp, ih]
    · simp [removeItem, findItem, hp, ih]

lemma findItem_removeItem_sub {items : List ((Int × Int) × Item)} {k k' : Int × Int}
    {it : Item} (h : findItem (removeItem items k) k' = some it) :
    findItem items k' = some it := by
  induction items with
  | nil => simp [removeItem, findItem] at h
  | cons p items ih =>
    simp only [findItem, removeItem] at h ih ⊢
    by_cases hpk : p.1 = k
    · rw [List.filter_cons_of_neg (by simp [hpk])] at h
      by_cases hpk' : p.1 = k'
      · have hkk' : k = k' := hpk.symm.trans hpk'
        subst hkk'
        have hnone := findItem_removeItem_self items k
        simp only [findItem, removeItem] at hnone
        rw [hnone] at h
        cases h
      · rw [List.find?_cons_of_neg _ (by simp [hpk'])]
        exact ih h
    · rw [List.filter_cons_of_pos (by simp [hpk])] at h
      by_cases hpk' : p.1 = k'
      · rw [List.find?_cons_of_pos _ (by simp [hpk'])] at h ⊢
        exact h
      · rw [List.find?_cons_of_neg _ (by simp [hpk'])] at h ⊢
        exact ih h

/-! ### Claim C3: bounded FIFO message log -/

/-- Claim C3: for every sequence of append operations the message log never
exceeds 5 entries, and appending to a full log of 5 removes exactly the
oldest entry while preserving the relative order of the rest (strict FIFO,
no deduplication). -/
theorem c3_message_log_bounded_fifo :
    (∀ (g : Game) (ms : List String), g.messages.length ≤ 5 →
      (ms.foldl Game.add_message g).messages.length ≤ 5) ∧
    (∀ (g : Game) (m : String), g.messages.length = 5 →
      (g.add_message m).messages = g.messages.tail ++ [m]) := by
  constructor
  · intro g ms
    induction ms generalizing g with
    | nil => intro h; simpa using h
    | cons m ms ih =>
      intro h
      exact ih _ (add_message_length_le g m h)
  · intro g m h
    cases hm : g.messages with
    | nil => rw [hm] at h; cases h
    | cons a t =>
      rw [hm] at h
      have ht : t.length = 4 := by
        simp only [List.length_cons] at h
        omega
      simp [Game.add_message, hm, ht]

/-- Witness for C3: appending six messages to the fresh game keeps the log at
5 entries, and appending to a 5-entry log drops exactly the head. -/
theorem c3_witness :
    ((["a", "b", "c", "d", "e", "f"].foldl Game.add_message Game.new).messages.length ≤ 5) ∧
    (({ Game.new with messages := ["1", "2", "3", "4", "5"] } :
        Game).add_message "6").messages = ["2", "3", "4", "5", "6"] :=
  ⟨c3_message_log_bounded_fifo.1 Game.new ["a", "b", "c", "d", "e", "f"] (by decide),
   c3_message_log_bounded_fifo.2
     { Game.new with messages := ["1", "2", "3", "4", "5"] } "6" (by decide)⟩

/-! ### Claim C4: walkability is bounds-checked and a pure function of kind -/

/-- Claim C4: for every grid and all integer coordinates, `is_walkable` is
false out of bounds regardless of tile contents; in bounds it equals the
terrain kind's walkable property, and the walkable kinds are exactly Floor,
Door, Grass, Forest, TownGate, DungeonGate. -/
theorem c4_is_walkable_spec :
    ∀ (m : GameMap) (x y : Int),
      ((x < 0 ∨ x ≥ m.width ∨ y < 0 ∨ y ≥ m.height) → m.is_walkable x y = false) ∧
      (0 ≤ x → x < m.width → 0 ≤ y → y < m.height →
        m.is_walkable x y = (m.tiles y x).is_walkable) ∧
      (∀ t : TileType, t.is_walkable = true ↔
        (t = TileType.Floor ∨ t = TileType.Door ∨ t = TileType.Grass ∨
         t = TileType.Forest ∨ t = TileType.Town ∨ t = TileType.Dungeon)) := by
  intro m x y
  refine ⟨?_, ?_, ?_⟩
  · intro h
    simp only [GameMap.is_walkable]
    rw [if_pos]
    rcases h with h | h | h | h
    · exact Or.inl h
    · exact Or.inr (Or.inl h)
    · exact Or.inr (Or.inr (Or.inl h))
    · exact Or.inr (Or.inr (Or.inr h))
  · intro h1 h2 h3 h4
    simp only [GameMap.is_walkable]
    rw [if_neg]
    push_neg
    exact ⟨h1, h2, h3, h4⟩
  · intro t
    cases t <;> simp [TileType.is_walkable]

/-- Witness for C4: on the world map, (-1,0) is out of bounds and hence not
walkable; (0,0) is in bounds and walkable exactly as its Grass tile; and
Grass is one of the walkable kinds. -/
theorem c4_witness :
    new_world_map.is_walkable (-1) 0 = false ∧
    new_world_map.is_walkable 0 0 = (new_world_map.tiles 0 0).is_walkable ∧
    (TileType.Grass.is_walkable = true ↔
      (TileType.Grass = TileType.Floor ∨ TileType.Grass = TileType.Door ∨
       TileType.Grass = TileType.Grass ∨ TileType.Grass = TileType.Forest ∨
       TileType.Grass = TileType.Town ∨ TileType.Grass = TileType.Dungeon)) :=
  ⟨(c4_is_walkable_spec new_world_map (-1) 0).1 (Or.inl (by decide)),
   (c4_is_walkable_spec new_world_map 0 0).2.1 (by decide) (by decide) (by decide) (by decide),
   (c4_is_walkable_spec new_world_map 0 0).2.2 TileType.Grass⟩

/-! ### Claim C5: actor encounters take priority over terrain -/

lemma move_player_encounter (g : Game) (dx dy : Int) (i : Nat)
    (hpos : listPos (fun n => n.x == g.player.x + dx && n.y == g.player.y + dy)
        g.npcs = some i) :
    g.move_player dx dy =
      (if (g.npcs.getD i default).hostile then
        ({ g with state := GameState.Combat i }).add_message
          ("Combat with " ++ (g.npcs.getD i default).name ++ "!")
      else { g with state := GameState.Dialogue i 0 0 }) := by
  simp only [Game.move_player, hpos]

/-- Claim C5: a move intent onto a cell occupied by a roster actor never
moves the player, regardless of terrain; the encountered actor's hostility
selects Combat (with the "Combat with {name}!" log entry) or
Dialogue (actor, node 0, option 0). -/
theorem c5_actor_encounter_priority :
    ∀ (g : Game) (dx dy : Int),
      (∃ n ∈ g.npcs, n.x = g.player.x + dx ∧ n.y = g.player.y + dy) →
      (g.move_player dx dy).player = g.player ∧
      ∃ i npc, g.npcs[i]? = some npc ∧
        npc.x = g.player.x + dx ∧ npc.y = g.player.y + dy ∧
        (npc.hostile = true →
          (g.move_player dx dy).state = GameState.Combat i ∧
          (g.move_player dx dy).messages.getLast? =
            some ("Combat with " ++ npc.name ++ "!")) ∧
        (npc.hostile = false →
          (g.move_player dx dy).state = GameState.Dialogue i 0 0) := by
  intro g dx dy h
  obtain ⟨i, npc, hpos, hget, hpred⟩ :=
    listPos_of_exists
      (fun n => n.x == g.player.x + dx && n.y == g.player.y + dy) g.npcs (by
        obtain ⟨n, hn, hx, hy⟩ := h
        exact ⟨n, hn, by simp [hx, hy]⟩)
  have hxy : npc.x = g.player.x + dx ∧ npc.y = g.player.y + dy := by
    simpa using hpred
  have hD : g.npcs.getD i default = npc := getD_of_getElem? hget
  have hmv := move_player_encounter g dx dy i hpos
  rw [hD] at hmv
  cases hhost : npc.hostile with
  | true =>
    rw [hhost, if_pos rfl] at hmv
    refine ⟨by rw [hmv]; rfl, i, npc, hget, hxy.1, hxy.2, ?_, ?_⟩
    · intro _
      exact ⟨by rw [hmv]; rfl, by rw [hmv]; exact add_message_getLast _ _⟩
    · intro hfalse
      rw [hfalse] at hhost
      cases hhost
  | false =>
    rw [hhost] at hmv
    simp only [Bool.false_eq_true, if_false] at hmv
    refine ⟨by rw [hmv], i, npc, hget, hxy.1, hxy.2, ?_, ?_⟩
    · intro htrue
      rw [htrue] at hhost
      cases hhost
    · intro _
      rw [hmv]

/-- Witness for C5: with the player just left of the Traveling Merchant,
moving right triggers the encounter without moving the player. -/
theorem c5_witness :
    ((({ Game.new with player := { Game.new.player with x := 34, y := 20 } } :
        Game).move_player 1 0).player =
      ({ Game.new with player := { Game.new.player with x := 34, y := 20 } } :
        Game).player) ∧
    ∃ i npc,
      ({ Game.new with player := { Game.new.player with x := 34, y := 20 } } :
        Game).npcs[i]? = some npc ∧
      npc.x = 34 + 1 ∧ npc.y = 20 + 0 ∧
      (npc.hostile = true →
        ((({ Game.new with player := { Game.new.player with x := 34, y := 20 } } :
            Game).move_player 1 0).state = GameState.Combat i ∧
         (({ Game.new with player := { Game.new.player with x := 34, y := 20 } } :
            Game).move_player 1 0).messages.getLast? =
           some ("Combat with " ++ npc.name ++ "!"))) ∧
      (npc.hostile = false →
        (({ Game.new with player := { Game.new.player with x := 34, y := 20 } } :
            Game).move_player 1 0).state = GameState.Dialogue i 0 0) :=
  c5_actor_encounter_priority
    { Game.new with player := { Game.new.player with x := 34, y := 20 } } 1 0
    ⟨traveling_merchant, by decide, by decide, by decide⟩

/-! ### Claim C7: dialogue selection and traversal -/

/-- Claim C7: in Dialogue mode, selection moves up only when positive and
down only while below the option count (no wraparound); Confirm follows the
selected option's next-node index (resetting selection to 0) or ends the
dialogue when it has none, and Cancel unconditionally returns to Playing. -/
theorem c7_dialogue_transitions :
    ∀ (g : Game) (a n s : Nat) (npc : NPC) (node : DialogueNode),
      g.state = GameState.Dialogue a n s →
      g.npcs[a]? = some npc →
      npc.dialogue[n]? = some node →
      (step g Key.W =
        some (if s > 0 then { g with state := GameState.Dialogue a n (s - 1) }
              else g)) ∧
      (step g Key.S =
        some (if s + 1 < node.options.length then
                { g with state := GameState.Dialogue a n (s + 1) }
              else g)) ∧
      (∀ opt, node.options[s]? = some opt →
        step g Key.Enter =
          some (match opt.next_node with
                | some next => { g with state := GameState.Dialogue a next 0 }
                | none => { g with state := GameState.Playing })) ∧
      (step g Key.Escape = some { g with state := GameState.Playing }) := by
  intro g a n s npc node hstate hnpc hnode
  refine ⟨?_, ?_, ?_, ?_⟩
  · simp only [step, hstate, dialogue_step, hnpc, hnode]
  · simp only [step, hstate, dialogue_step, hnpc, hnode]
  · intro opt hopt
    simp only [step, hstate, dialogue_step, hnpc, hnode, hopt]
    cases opt.next_node <;> rfl
  · simp only [step, hstate, dialogue_step, hnpc, hnode]

/-- A fresh game placed directly in dialogue with the Traveling Merchant at
the entry node. -/
def game_in_dialogue : Game :=
  { Game.new with state := GameState.Dialogue 0 0 0 }

/-- Witness for C7: at the merchant's entry node with option 0 selected,
Move-up is a no-op, Move-down advances to option 1, and Cancel returns to
Playing. -/
theorem c7_witness :
    (step game_in_dialogue Key.W =
      some (if 0 > 0 then
              { game_in_dialogue with state := GameState.Dialogue 0 0 (0 - 1) }
            else game_in_dialogue)) ∧
    (step game_in_dialogue Key.S =
      some (if 0 + 1 < merchant_node0.options.length then
              { game_in_dialogue with state := GameState.Dialogue 0 0 (0 + 1) }
            else game_in_dialogue)) ∧
    (step game_in_dialogue Key.Escape =
      some { game_in_dialogue with state := GameState.Playing }) :=
  ⟨(c7_dialogue_transitions game_in_dialogue 0 0 0 traveling_merchant
      merchant_node0 rfl rfl rfl).1,
   (c7_dialogue_transitions game_in_dialogue 0 0 0 traveling_merchant
      merchant_node0 rfl rfl rfl).2.1,
   (c7_dialogue_transitions game_in_dialogue 0 0 0 traveling_merchant
      merchant_node0 rfl rfl rfl).2.2.2⟩

/-! ### Claim C6: town gate entry and return round trip -/

/-- A fresh game with the player standing on the overworld town gate at
(15,10). -/
def game_at_town_gate : Game :=
  { Game.new with player := { Game.new.player with x := 15, y := 10 } }

/-- Claim C6: entering the town gate at (15,10) loads Town catalog index 0,
puts the player at the town's fixed entry coordinate (20,15) and records
LocationMemory {Overworld, 0, 15, 10}; an immediate return restores the
player to (15,10) on the Overworld grid and clears the memory. -/
theorem c6_town_gate_round_trip :
    game_at_town_gate.try_enter_location.current_map = new_town_map 0 ∧
    game_at_town_gate.try_enter_location.current_map.name = "Town #1" ∧
    game_at_town_gate.try_enter_location.player.x = 20 ∧
    game_at_town_gate.try_enter_location.player.y = 15 ∧
    game_at_town_gate.try_enter_location.previous_location =
      some { map_type := MapType.WorldMap, map_id := 0, x := 15, y := 10 } ∧
    game_at_town_gate.try_enter_location.return_to_world_map.player.x = 15 ∧
    game_at_town_gate.try_enter_location.return_to_world_map.player.y = 10 ∧
    game_at_town_gate.try_enter_location.return_to_world_map.current_map =
      new_world_map ∧
    game_at_town_gate.try_enter_location.return_to_world_map.current_map.map_type =
      MapType.WorldMap ∧
    game_at_town_gate.try_enter_location.return_to_world_map.previous_location =
      none :=
  ⟨rfl, rfl, by decide, by decide, by decide, by decide, by decide, rfl, rfl, by decide⟩

/-! ### Claim C9: dungeon entry lands on the unclaimed Treasure Chest -/

/-- A fresh game with the player standing on the overworld dungeon gate at
(40,8). -/
def game_at_dungeon_gate : Game :=
  { Game.new with player := { Game.new.player with x := 40, y := 8 } }

lemma move_player_walk_no_item (g : Game) (dx dy : Int)
    (hnpc : listPos (fun n => n.x == g.player.x + dx && n.y == g.player.y + dy)
        g.npcs = none)
    (hwalk : g.current_map.is_walkable (g.player.x + dx) (g.player.y + dy) = true)
    (hitem : findItem g.current_map.items (g.player.x + dx, g.player.y + dy) = none) :
    g.move_player dx dy =
      { g with player := { g.player with x := g.player.x + dx, y := g.player.y + dy } } := by
  simp only [Game.move_player, hnpc, hwalk, hitem, if_true]

lemma move_player_pickup (g : Game) (dx dy : Int) (item : Item)
    (hnpc : listPos (fun n => n.x == g.player.x + dx && n.y == g.player.y + dy)
        g.npcs = none)
    (hwalk : g.current_map.is_walkable (g.player.x + dx) (g.player.y + dy) = true)
    (hitem : findItem g.current_map.items (g.player.x + dx, g.player.y + dy) = some item) :
    g.move_player dx dy =
      (let g1 : Game :=
        { g with player := { g.player with x := g.player.x + dx, y := g.player.y + dy } }
       let g2 : Game :=
        { g1 with current_map :=
            { g1.current_map with
                items := removeItem g1.current_map.items (g.player.x + dx, g.player.y + dy) } }
       let g3 : Game := g2.add_message ("Picked up " ++ item.name)
       { g3 with player :=
          { g3.player with inventory := g3.player.inventory ++ [item] } }) := by
  simp only [Game.move_player, hnpc, hwalk, hitem, if_true]

lemma try_enter_dungeon (g : Game)
    (hworld : g.current_map.map_type = MapType.WorldMap)
    (htile : g.current_map.tiles g.player.y g.player.x = TileType.Dungeon) :
    g.try_enter_location =
      (let dungeon_id : Nat :=
        if (g.player.x, g.player.y) = ((40 : Int), (8 : Int)) then 0 else 1
       let g2 : Game :=
        { g with
            previous_location :=
              some { map_type := MapType.WorldMap, map_id := 0,
                     x := g.player.x, y := g.player.y },
            current_map := g.dungeon_maps.getD dungeon_id default,
            player := { g.player with x := 5, y := 5 },
            npcs := dungeon_npcs dungeon_id }
       g2.add_message ("Entered " ++ g2.current_map.name)) := by
  simp only [Game.try_enter_location]
  rw [htile]
  simp [hworld, TileType.is_enterable]

/-- Claim C9: entering a dungeon from the world map places the player at the
entry coordinate (5,5), exactly the cell holding the dungeon's Treasure
Chest; entry performs no pickup (the item is still in the grid at the
player's own position and the inventory is unchanged), and a later move off
and back onto the cell does transfer it. -/
theorem c9_dungeon_entry_no_pickup :
    ∀ g : Game,
      g.current_map.map_type = MapType.WorldMap →
      g.current_map.tiles g.player.y g.player.x = TileType.Dungeon →
      g.dungeon_maps = [new_dungeon_map 0, new_dungeon_map 1] →
      (g.try_enter_location.player.x = 5 ∧
       g.try_enter_location.player.y = 5 ∧
       findItem g.try_enter_location.current_map.items
         (g.try_enter_location.player.x, g.try_enter_location.player.y) =
         some treasure_chest ∧
       g.try_enter_location.player.inventory = g.player.inventory ∧
       ((g.try_enter_location.move_player 0 1).move_player 0 (-1)).player.inventory =
         g.player.inventory ++ [treasure_chest]) := by
  intro g hworld htile hcat
  rw [try_enter_dungeon g hworld htile, hcat]
  by_cases hxy : (g.player.x, g.player.y) = ((40 : Int), (8 : Int)) <;>
    simp only [hxy, reduceIte] <;>
    exact ⟨rfl, rfl, rfl, rfl, rfl⟩


/-- Witness for C9: entering dungeon 0 from the gate at (40,8). -/
theorem c9_witness :
    game_at_dungeon_gate.try_enter_location.player.x = 5 ∧
    game_at_dungeon_gate.try_enter_location.player.y = 5 ∧
    findItem game_at_dungeon_gate.try_enter_location.current_map.items
      (game_at_dungeon_gate.try_enter_location.player.x,
       game_at_dungeon_gate.try_enter_location.player.y) = some treasure_chest ∧
    game_at_dungeon_gate.try_enter_location.player.inventory =
      game_at_dungeon_gate.player.inventory ∧
    ((game_at_dungeon_gate.try_enter_location.move_player 0 1).move_player
        0 (-1)).player.inventory =
      game_at_dungeon_gate.player.inventory ++ [treasure_chest] :=
  c9_dungeon_entry_no_pickup game_at_dungeon_gate rfl rfl rfl

/-! ### Claim C1: two attacks on an 80-hp hostile actor -/

/-- Key script: walk from (40,20) up to the dungeon gate at (40,8), enter
dungeon 0, walk down to (5,10) and right into the Dungeon Guard at (10,10),
which starts Combat. -/
def combat_setup_keys : List Key :=
  List.replicate 12 Key.W ++ [Key.Space] ++ List.replicate 5 Key.S ++
    List.replicate 5 Key.D

/-- Counterexample to C1: from the fresh game, the scripted walk puts the
player (100 hp) in Combat with the hostile 80-hp Dungeon Guard; after two
Attack keys the guard is at 50 hp as claimed, but the player has lost 20 hp
(two counter-attacks), not the claimed single counter-attack's 10. -/
theorem c1_counterexample :
    (steps Game.new combat_setup_keys).map
        (fun g => (g.state, g.npcs.head?.map (fun n => (n.hp, n.hostile)), g.player.hp))
      = some (GameState.Combat 0, some (80, true), 100) ∧
    (steps Game.new (combat_setup_keys ++ [Key.Key1, Key.Key1])).map
        (fun g => (g.npcs.head?.map NPC.hp, g.player.hp))
      = some (some 50, 100 - 20) ∧
    (100 - 20 : Int) ≠ 100 - 10 := by
  refine ⟨by decide, by decide, by decide⟩

lemma combat_attack_survives (g : Game) (i : Nat) (npc : NPC)
    (hstate : g.state = GameState.Combat i)
    (hget : g.npcs[i]? = some npc)
    (hsurv : ¬ npc.hp - 15 ≤ 0) :
    step g Key.Key1 =
      some
        (let g1 : Game := { g with npcs := g.npcs.set i { npc with hp := npc.hp - 15 } }
         let g2 : Game := g1.add_message ("You dealt " ++ toString (15 : Int) ++ " damage!")
         let g3 : Game := { g2 with player := { g2.player with hp := g2.player.hp - 10 } }
         g3.add_message ("Enemy dealt " ++ toString (10 : Int) ++ " damage!")) := by
  simp only [step, hstate, combat_step, hget]
  rw [if_neg (by simpa using hsurv)]

/-- Claim C1 as amended: in Combat against an actor with 80 health, each of
the two Attack actions triggers a counter-attack (the target survives both),
so the target ends at 50 health and the player has lost two counter-attacks'
worth of health (20), not one. -/
theorem c1_two_attacks_amended :
    ∀ (g : Game) (i : Nat) (npc : NPC),
      g.state = GameState.Combat i →
      g.npcs[i]? = some npc →
      npc.hp = 80 →
      (steps g [Key.Key1, Key.Key1]).map
          (fun g2 => ((g2.npcs[i]?).map NPC.hp, g2.player.hp, g2.state))
        = some (some 50, g.player.hp - 10 - 10, GameState.Combat i) := by
  intro g i npc hstate hget hhp
  have hlt : i < g.npcs.length := by
    by_contra hge
    rw [List.getElem?_eq_none (Nat.le_of_not_lt hge)] at hget
    cases hget
  obtain ⟨nm, ch, nx, ny, nhp, nmhp, nhost, ndlg⟩ := npc
  have hhp' : nhp = 80 := hhp
  subst hhp'
  have h1 := combat_attack_survives g i _ hstate hget (by norm_num)
  simp only [steps, h1]
  norm_num [step, add_message_state, add_message_npcs, add_message_player, hstate,
    combat_step, List.getElem?_set_eq_of_lt, hlt]

/-- A fresh game placed directly in Combat with the 80-hp Dungeon Guard. -/
def game_in_combat : Game :=
  { Game.new with npcs := dungeon_npcs 0, state := GameState.Combat 0 }

/-- Witness for the amended C1: two attacks on the 80-hp Dungeon Guard leave
it at 50 hp, the player down 20 hp, and combat still running. -/
theorem c1_witness :
    (steps game_in_combat [Key.Key1, Key.Key1]).map
        (fun g2 => ((g2.npcs[0]?).map NPC.hp, g2.player.hp, g2.state))
      = some (some 50, game_in_combat.player.hp - 10 - 10, GameState.Combat 0) :=
  c1_two_attacks_amended game_in_combat 0 dungeon_guard rfl rfl rfl

/-! ### Claim C2: pickup transfers ownership, but "exactly once" can fail -/

/-- Key script: walk to the dungeon gate at (40,8), enter, step off the
entry cell and back to pick up the Treasure Chest, return to the overworld,
re-enter the same dungeon (whose catalog copy has the chest again) and step
off the entry cell; the player now stands at (5,6) holding one chest with a
second chest on the ground at (5,5). -/
def double_pickup_setup : List Key :=
  List.replicate 12 Key.W ++
    [Key.Space, Key.S, Key.W, Key.Escape, Key.Space, Key.S]

/-- Counterexample to C2: after the setup script the player holds one
Treasure Chest and stands next to an identical ground chest at (5,5); the
final move onto (5,5) is a successful move onto a cell holding a ground
item, yet afterwards the item's multiplicity in the inventory is 2, not
"exactly once" — clone-on-enter respawned the catalog item. -/
theorem c2_counterexample :
    (steps Game.new double_pickup_setup).map
        (fun g => (g.player.x, g.player.y, findItem g.current_map.items (5, 5),
          g.player.inventory.count treasure_chest))
      = some (5, 6, some treasure_chest, 1) ∧
    (steps Game.new (double_pickup_setup ++ [Key.W])).map
        (fun g => (g.player.x, g.player.y, findItem g.current_map.items (5, 5),
          g.player.inventory.count treasure_chest, g.player.inventory.length))
      = some (5, 5, none, 2, 2) ∧
    (2 : Nat) ≠ 1 := by
  refine ⟨by decide, by decide, by decide⟩

/-- Claim C2 as amended: after any successful move onto a cell holding a
ground item, that coordinate is absent from the active grid's item mapping,
the item is appended to the inventory in the same step (the inventory length
and the item's multiplicity each grow by exactly one); the item can already
occur in the inventory, so "occurs exactly once" holds only when no
identical item was previously collected. -/
theorem c2_pickup_transfer_amended :
    ∀ (g : Game) (dx dy : Int) (item : Item),
      listPos (fun n => n.x == g.player.x + dx && n.y == g.player.y + dy)
        g.npcs = none →
      g.current_map.is_walkable (g.player.x + dx) (g.player.y + dy) = true →
      findItem g.current_map.items (g.player.x + dx, g.player.y + dy) = some item →
      (findItem (g.move_player dx dy).current_map.items
          (g.player.x + dx, g.player.y + dy) = none ∧
       (g.move_player dx dy).player.inventory = g.player.inventory ++ [item] ∧
       (g.move_player dx dy).player.inventory.length =
         g.player.inventory.length + 1 ∧
       (g.move_player dx dy).player.inventory.count item =
         g.player.inventory.count item + 1 ∧
       (g.move_player dx dy).player.x = g.player.x + dx ∧
       (g.move_player dx dy).player.y = g.player.y + dy) := by
  intro g dx dy item hnpc hwalk hitem
  rw [move_player_pickup g dx dy item hnpc hwalk hitem]
  refine ⟨findItem_removeItem_self _ _, rfl, by simp, by simp, rfl, rfl⟩

/-- A fresh game relocated into dungeon 0 just below the Treasure Chest
cell. -/
def game_below_chest : Game :=
  { Game.new with
      current_map := new_dungeon_map 0,
      player := { Game.new.player with x := 5, y := 6 } }

/-- Witness for the amended C2: moving up from (5,6) in dungeon 0 picks up
the Treasure Chest. -/
theorem c2_witness :
    findItem (game_below_chest.move_player 0 (-1)).current_map.items
        (game_below_chest.player.x + 0, game_below_chest.player.y + (-1)) = none ∧
    (game_below_chest.move_player 0 (-1)).player.inventory =
      game_below_chest.player.inventory ++ [treasure_chest] ∧
    (game_below_chest.move_player 0 (-1)).player.inventory.length =
      game_below_chest.player.inventory.length + 1 ∧
    (game_below_chest.move_player 0 (-1)).player.inventory.count treasure_chest =
      game_below_chest.player.inventory.count treasure_chest + 1 ∧
    (game_below_chest.move_player 0 (-1)).player.x =
      game_below_chest.player.x + 0 ∧
    (game_below_chest.move_player 0 (-1)).player.y =
      game_below_chest.player.y + (-1) :=
  c2_pickup_transfer_amended game_below_chest 0 (-1) treasure_chest rfl rfl rfl

/-! ### Reachability invariant for claims C8 and C10 -/

/-- The map catalogs and the cached world map are never mutated by any
command. -/
def catalogs_fixed (g : Game) : Prop :=
  g.town_maps = [new_town_map 0, new_town_map 1] ∧
  g.dungeon_maps = [new_dungeon_map 0, new_dungeon_map 1] ∧
  g.world_map = new_world_map

/-- The saved location is present exactly when the active grid is not the
overworld. -/
def memory_matches_map (g : Game) : Prop :=
  g.previous_location.isSome = true ↔ g.current_map.map_type ≠ MapType.WorldMap

/-- The inventory never holds a "Town Supply", and any grid item with that
name sits on a non-walkable cell. -/
def supply_out_of_reach (g : Game) : Prop :=
  (∀ it ∈ g.player.inventory, it.name ≠ "Town Supply") ∧
  (∀ (x y : Int) (it : Item), findItem g.current_map.items (x, y) = some it →
    it.name = "Town Supply" → g.current_map.is_walkable x y = false)

/-- Invariant maintained by every key press from the initial game. -/
def ReachInv (g : Game) : Prop :=
  catalogs_fixed g ∧ memory_matches_map g ∧ supply_out_of_reach g

lemma reachInv_new : ReachInv Game.new := by
  refine ⟨⟨rfl, rfl, rfl⟩, by simp [memory_matches_map, Game.new, new_world_map], ?_, ?_⟩
  · intro it hit
    simp [Game.new] at hit
  · intro x y it hfind
    simp [Game.new, new_world_map, findItem] at hfind

lemma move_player_blocked (g : Game) (dx dy : Int)
    (hnpc : listPos (fun n => n.x == g.player.x + dx && n.y == g.player.y + dy)
        g.npcs = none)
    (hwalk : g.current_map.is_walkable (g.player.x + dx) (g.player.y + dy) = false) :
    g.move_player dx dy = g := by
  simp only [Game.move_player, hnpc, hwalk]
  rfl

lemma move_player_preserves (g : Game) (dx dy : Int) (h : ReachInv g) :
    ReachInv (g.move_player dx dy) := by
  rcases hpos : listPos (fun n => n.x == g.player.x + dx && n.y == g.player.y + dy)
      g.npcs with _ | i
  · cases hwalk : g.current_map.is_walkable (g.player.x + dx) (g.player.y + dy) with
    | false =>
      rw [move_player_blocked g dx dy hpos hwalk]
      exact h
    | true =>
      rcases hitem : findItem g.current_map.items (g.player.x + dx, g.player.y + dy)
          with _ | item
      · rw [move_player_walk_no_item g dx dy hpos hwalk hitem]
        exact h
      · rw [move_player_pickup g dx dy item hpos hwalk hitem]
        obtain ⟨hcat, hmem, hinv, hitems⟩ := h
        refine ⟨hcat, hmem, ?_, ?_⟩
        · intro it hit
          have hit' : it ∈ g.player.inventory ++ [item] := hit
          rcases List.mem_append.mp hit' with hold | hnew
          · exact hinv it hold
          · obtain rfl : it = item := by simpa using hnew
            intro hname
            have := hitems (g.player.x + dx) (g.player.y + dy) it hitem hname
            rw [this] at hwalk
            cases hwalk
        · intro x y it hfind hname
          have hfind' : findItem
              (removeItem g.current_map.items (g.player.x + dx, g.player.y + dy))
              (x, y) = some it := hfind
          exact hitems x y it (findItem_removeItem_sub hfind') hname
  · rw [move_player_encounter g dx dy i hpos]
    by_cases hhost : (g.npcs.getD i default).hostile
    · rw [if_pos hhost]
      exact h
    · rw [if_neg hhost]
      exact h

lemma try_enter_not_world (g : Game)
    (hw : ¬ g.current_map.map_type = MapType.WorldMap) :
    g.try_enter_location = g := by
  simp only [Game.try_enter_location]
  rw [if_pos hw]

lemma try_enter_not_enterable (g : Game)
    (h : TileType.is_enterable (g.current_map.tiles g.player.y g.player.x) = false) :
    g.try_enter_location = g := by
  simp only [Game.try_enter_location]
  by_cases hw : g.current_map.map_type = MapType.WorldMap
  · rw [if_neg (by simp [hw])]
    rw [if_pos (by simp [h])]
  · rw [if_pos hw]

lemma try_enter_town (g : Game)
    (hworld : g.current_map.map_type = MapType.WorldMap)
    (htile : g.current_map.tiles g.player.y g.player.x = TileType.Town) :
    g.try_enter_location =
      (let town_id : Nat :=
        if (g.player.x, g.player.y) = ((15 : Int), (10 : Int)) then 0 else 1
       let g2 : Game :=
        { g with
            previous_location :=
              some { map_type := MapType.WorldMap, map_id := 0,
                     x := g.player.x, y := g.player.y },
            current_map := g.town_maps.getD town_id default,
            player := { g.player with x := 20, y := 15 },
            npcs := town_npcs town_id }
       g2.add_message ("Entered " ++ g2.current_map.name)) := by
  simp only [Game.try_enter_location]
  rw [htile]
  simp [hworld, TileType.is_enterable]

lemma findItem_singleton (k : Int × Int) (it : Item) {k' : Int × Int} {it' : Item}
    (h : findItem [(k, it)] k' = some it') : k = k' ∧ it = it' := by
  by_cases hk : k = k'
  · subst hk
    simp [findItem] at h
    exact ⟨rfl, h⟩
  · simp [findItem, hk] at h

lemma try_enter_preserves (g : Game) (h : ReachInv g) :
    ReachInv g.try_enter_location := by
  obtain ⟨⟨htown, hdung, hworldm⟩, hmem, hinv, hitems⟩ := h
  by_cases hw : g.current_map.map_type = MapType.WorldMap
  · rcases htile : g.current_map.tiles g.player.y g.player.x with
      _ | _ | _ | _ | _ | _ | _ | _ | _
    rotate_left 7
    · -- the Town gate tile
      rw [try_enter_town g hw htile, htown]
      by_cases hxy : (g.player.x, g.player.y) = ((15 : Int), (10 : Int)) <;>
        simp only [hxy, reduceIte] <;>
        refine ⟨⟨by simp, by simpa using hdung, by simpa using hworldm⟩,
          by simp [memory_matches_map, new_town_map, List.getD],
          by simpa using hinv, ?_⟩ <;>
        · intro x y it hfind hname
          obtain ⟨hk, rfl⟩ :=
            findItem_singleton ((10 : Int), (15 : Int)) town_supply hfind
          injection hk with hx hy
          subst hx
          subst hy
          rfl
    · -- the Dungeon gate tile
      rw [try_enter_dungeon g hw htile, hdung]
      by_cases hxy : (g.player.x, g.player.y) = ((40 : Int), (8 : Int)) <;>
        simp only [hxy, reduceIte] <;>
        refine ⟨⟨by simpa using htown, by simp, by simpa using hworldm⟩,
          by simp [memory_matches_map, new_dungeon_map, List.getD],
          by simpa using hinv, ?_⟩ <;>
        · intro x y it hfind hname
          obtain ⟨hk, rfl⟩ :=
            findItem_singleton ((5 : Int), (5 : Int)) treasure_chest hfind
          exact absurd hname (by decide)
    all_goals
      rw [try_enter_not_enterable g (by rw [htile]; rfl)]
    all_goals exact ⟨⟨htown, hdung, hworldm⟩, hmem, hinv, hitems⟩
  · rw [try_enter_not_world g hw]
    exact ⟨⟨htown, hdung, hworldm⟩, hmem, hinv, hitems⟩

lemma return_preserves (g : Game) (h : ReachInv g) :
    ReachInv g.return_to_world_map := by
  obtain ⟨⟨htown, hdung, hworldm⟩, hmem, hinv, hitems⟩ := h
  by_cases hw : g.current_map.map_type = MapType.WorldMap
  · have hid : g.return_to_world_map = g := by
      simp only [Game.return_to_world_map]
      rw [if_pos hw]
    rw [hid]
    exact ⟨⟨htown, hdung, hworldm⟩, hmem, hinv, hitems⟩
  · rcases hprev : g.previous_location with _ | prev
    · exfalso
      have h1 : g.previous_location.isSome = true := hmem.mpr hw
      rw [hprev] at h1
      simp at h1
    · have hred : g.return_to_world_map =
          ({ g with current_map := g.world_map,
                    player := { g.player with x := prev.x, y := prev.y },
                    previous_location := none,
                    npcs := world_npcs }).add_message "Returned to world map" := by
        simp only [Game.return_to_world_map, hprev]
        rw [if_neg hw]
      rw [hred, hworldm]
      refine ⟨⟨by simpa using htown, by simpa using hdung, by simp⟩,
        by simp [memory_matches_map, new_world_map],
        by simpa using hinv, ?_⟩
      intro x y it hfind hname
      have hfind' : findItem ([] : List ((Int × Int) × Item)) (x, y) = some it := hfind
      simp [findItem] at hfind'

lemma dialogue_preserves (g g' : Game) (a n s : Nat) (k : Key)
    (hstep : dialogue_step g a n s k = some g') (h : ReachInv g) : ReachInv g' := by
  rcases hne : g.npcs[a]? with _ | npc
  · simp only [dialogue_step, hne] at hstep
    cases hstep
  · rcases hnd : npc.dialogue[n]? with _ | node
    · simp only [dialogue_step, hne, hnd] at hstep
      cases hstep
    · cases k <;> simp only [dialogue_step, hne, hnd] at hstep
      case W =>
        obtain rfl := Option.some.inj hstep.symm
        split <;> exact h
      case S =>
        obtain rfl := Option.some.inj hstep.symm
        split <;> exact h
      case Space =>
        rcases hop : node.options[s]? with _ | opt
        · simp only [hop] at hstep
          cases hstep
        · simp only [hop] at hstep
          rcases hnn : opt.next_node with _ | nx <;> simp only [hnn] at hstep <;>
            obtain rfl := Option.some.inj hstep.symm <;> exact h
      case Enter =>
        rcases hop : node.options[s]? with _ | opt
        · simp only [hop] at hstep
          cases hstep
        · simp only [hop] at hstep
          rcases hnn : opt.next_node with _ | nx <;> simp only [hnn] at hstep <;>
            obtain rfl := Option.some.inj hstep.symm <;> exact h
      case Escape =>
        obtain rfl := Option.some.inj hstep.symm
        exact h
      all_goals
        obtain rfl := Option.some.inj hstep.symm
      all_goals exact h

lemma combat_preserves (g g' : Game) (i : Nat) (k : Key)
    (hstep : combat_step g i k = some g') (h : ReachInv g) : ReachInv g' := by
  cases k <;> simp only [combat_step] at hstep
  case Key1 =>
    rcases hne : g.npcs[i]? with _ | npc
    · simp only [hne] at hstep
      cases hstep
    · simp only [hne] at hstep
      split at hstep <;> obtain rfl := Option.some.inj hstep.symm <;> exact h
  case Key3 =>
    obtain rfl := Option.some.inj hstep.symm
    exact h
  all_goals
    obtain rfl := Option.some.inj hstep.symm
  all_goals exact h

lemma step_preserves (g g' : Game) (k : Key)
    (hstep : step g k = some g') (h : ReachInv g) : ReachInv g' := by
  rcases hgs : g.state with _ | _ | ⟨a, n, s⟩ | i <;>
    simp only [step, hgs] at hstep
  · obtain rfl := Option.some.inj hstep.symm
    cases k <;> simp only [playing_step]
    case W => exact move_player_preserves g 0 (-1) h
    case S => exact move_player_preserves g 0 1 h
    case A => exact move_player_preserves g (-1) 0 h
    case D => exact move_player_preserves g 1 0 h
    case Space => exact try_enter_preserves g h
    case Escape => exact return_preserves g h
    all_goals exact h
  · obtain rfl := Option.some.inj hstep.symm
    cases k <;> simp only [inventory_step] <;> exact h
  · exact dialogue_preserves g g' a n s k hstep h
  · exact combat_preserves g g' i k hstep h

lemma steps_preserve : ∀ (ks : List Key) (g g' : Game),
    steps g ks = some g' → ReachInv g → ReachInv g' := by
  intro ks
  induction ks with
  | nil =>
    intro g g' hsteps h
    obtain rfl := Option.some.inj hsteps
    exact h
  | cons k ks ih =>
    intro g g' hsteps h
    rcases hstep : step g k with _ | g1
    · rw [steps, hstep] at hsteps
      cases hsteps
    · rw [steps, hstep] at hsteps
      exact ih g1 g' hsteps (step_preserves g g1 k hstep h)

/-! ### Claim C8: the LocationMemory invariant -/

/-- Claim C8: in every state reachable from the initial game by any key
sequence, the saved LocationMemory is present exactly when the active grid
is not the overworld. -/
theorem c8_memory_iff_not_overworld :
    ∀ (ks : List Key) (g : Game), steps Game.new ks = some g →
      (g.previous_location.isSome = true ↔
        g.current_map.map_type ≠ MapType.WorldMap) :=
  fun ks g h => (steps_preserve ks Game.new g h reachInv_new).2.1

/-- Witness for C8: the empty key sequence reaches the initial game, where
no memory is saved and the overworld is active. -/
theorem c8_witness :
    Game.new.previous_location.isSome = true ↔
      Game.new.current_map.map_type ≠ MapType.WorldMap :=
  c8_memory_iff_not_overworld [] Game.new rfl

/-! ### Claim C10: the town's ground item is permanently unreachable -/

/-- Claim C10: in every town map the ground item at (10,15) is the Town
Supply sitting on a Water tile, which is not walkable; and in every state
reachable from the initial game by any key sequence, no inventory item is
the Town Supply — the item can never be transferred to the player. -/
theorem c10_town_supply_unreachable :
    ∀ (tid : Nat) (ks : List Key) (g : Game),
      steps Game.new ks = some g →
      (findItem (new_town_map tid).items (10, 15) = some town_supply ∧
       (new_town_map tid).tiles 15 10 = TileType.Water ∧
       (new_town_map tid).is_walkable 10 15 = false ∧
       ∀ it ∈ g.player.inventory, it.name ≠ "Town Supply") :=
  fun _tid ks g h =>
    ⟨rfl, rfl, rfl, (steps_preserve ks Game.new g h reachInv_new).2.2.1⟩

/-- Witness for C10: town map 0 and the empty key sequence reaching the
initial game. -/
theorem c10_witness :
    findItem (new_town_map 0).items (10, 15) = some town_supply ∧
    (new_town_map 0).tiles 15 10 = TileType.Water ∧
    (new_town_map 0).is_walkable 10 15 = false ∧
    ∀ it ∈ Game.new.player.inventory, it.name ≠ "Town Supply" :=
  c10_town_supply_unreachable 0 [] Game.new rfl
